import Mathlib

/-!
Shallow embedding of src/native/main.cpp from JosephCatrambone/blender_fiducial_markers:
a command-line pipeline that opens a video, detects ArUco/AprilTag fiducial
markers per frame, solves a per-marker PnP pose and writes line-delimited
per-frame records to standard output.

Modelling conventions:
* machine floating-point values (C++ float/double) are modelled as exact
  rationals; every numeric value the theorems touch (0, 1, 50, width/2, ...)
  is exactly representable in binary floating point, so no rounding behaviour
  is lost by this choice;
* the OpenCV primitives are external to the repository and are modelled at
  their interface: cv::aruco::detectMarkers is an oracle whose per-frame
  output (the parallel markerIds / markerCorners vectors) is carried by each
  Frame value, and cv::solvePnP is an arbitrary total function, a parameter
  of the pipeline;
* standard output is modelled structurally as the list of emitted frame
  records, standard error as a list of message strings;
* a C++ exception escaping main (which triggers std::terminate / abort)
  is the outcome RunOutcome.uncaughtException.
-/

attribute [local semireducible] Rat.mul Rat.add Rat.inv Rat.sub

deriving instance DecidableEq for Except

/-- cv::Vec3d (rotation / translation vectors), over exact rationals. -/
structure Vec3 where
  x : ℚ
  y : ℚ
  z : ℚ
  deriving DecidableEq, Repr

/-- cv::Point2f (an image-plane corner), over exact rationals. -/
structure Point2 where
  x : ℚ
  y : ℚ
  deriving DecidableEq, Repr

/-- The 3x3 camera intrinsic matrix written entry by entry at main.cpp lines
64-73 (cameraMatrix.at(r,c) assignments). -/
structure CameraIntrinsics where
  m00 : ℚ
  m01 : ℚ
  m02 : ℚ
  m10 : ℚ
  m11 : ℚ
  m12 : ℚ
  m20 : ℚ
  m21 : ℚ
  m22 : ℚ
  deriving DecidableEq, Repr

/-- One decoded video frame, together with the result that the external
primitive cv::aruco::detectMarkers (main.cpp line 92) produces on it under
the run's dictionary: the parallel vectors markerIds and markerCorners.
cols/rows are the cv::Mat dimensions. -/
structure Frame where
  cols : Nat
  rows : Nat
  markerIds : List Int
  markerCorners : List (List Point2)
  deriving DecidableEq, Repr

/-- A frame record emitted on standard output, modelled structurally
(frame id plus the list of marker ids in the detections array). -/
structure FrameRecordOut where
  frame_id : Nat
  detections : List Int
  deriving DecidableEq, Repr

/-- struct RunConfiguration, main.cpp lines 15-25. uint fields are Nat;
float fields are exact rationals. -/
structure RunConfiguration where
  mediaFilepath : String
  dictionaryName : String
  markerSizeMM : ℚ
  cameraFocalLengthMM : ℚ
  startFrame : Nat
  endFrame : Nat
  quit : Bool
  printEmptyFrames : Bool
  errorMessage : String
  deriving DecidableEq, Repr

/-- A C++ exception that can escape parseArgs: std::stof (main.cpp line 137)
throws std::invalid_argument when no numeric conversion can be performed. -/
inductive CppException where
  | invalidArgument : CppException
  deriving DecidableEq, Repr

/-- cv::aruco::PREDEFINED_DICTIONARY_NAME, restricted to the values reachable
from getDictFromName. DICT_4X4_50 is enumerator 0, the value a
value-initialized PREDEFINED_DICTIONARY_NAME holds. -/
inductive PredefinedDictionaryName where
  | DICT_4X4_50 : PredefinedDictionaryName
  | DICT_ARUCO_ORIGINAL : PredefinedDictionaryName
  | DICT_APRILTAG_16h5 : PredefinedDictionaryName
  | DICT_APRILTAG_25h9 : PredefinedDictionaryName
  | DICT_APRILTAG_36h10 : PredefinedDictionaryName
  | DICT_APRILTAG_36h11 : PredefinedDictionaryName
  deriving DecidableEq, Repr

/-- Observable outcome of one process execution: either a normal exit with
an exit code, the emitted standard-output records and the standard-error
lines, or termination by an uncaught C++ exception. -/
inductive RunOutcome where
  | uncaughtException : RunOutcome
  | finished (exitCode : Int) (stdoutRecords : List FrameRecordOut)
      (stderrLines : List String) : RunOutcome
  deriving DecidableEq, Repr

/-- The external primitive cv::solvePnP (main.cpp line 100) at its interface:
object points, image corners, camera matrix and distortion coefficients in,
an (rvec, tvec) pair out. The repository's code places no constraint on it. -/
abbrev PnPSolver :=
  List Vec3 → List Point2 → CameraIntrinsics → List ℚ → Vec3 × Vec3

/-- Usage text set at main.cpp line 124. -/
def usageMessage : String :=
  "Usage: app path_to_mediafile dictionary_name marker_size_mm\nOptional Arguments: --focalmm=[The focal length of the camera in mm]\n"

/-- Error text set at main.cpp line 131. -/
def notEnoughArgsMessage : String :=
  "Not enough arguments. Usage: path_to_mediafile dictionary_name marker_size_mm"

/-- Error text printed at main.cpp line 43 when the video cannot be opened. -/
def failedToOpenMessage (path : String) : String :=
  "Failed to open video stream " ++ path

/-- Error text printed at main.cpp line 48 when the stream ends during the
skip-to-start-frame loop. -/
def startFrameMessage : String :=
  "Start frame was greater than video length."

/-- startsWith, main.cpp lines 153-161: compares only the first
min(str.length, match.length) characters, so it accepts any mutual prefix
(in particular the empty string and strings longer than the pattern).
C++ byte indexing coincides with character indexing on the ASCII arguments
involved. -/
def startsWith (str pat : String) : Bool :=
  let e := min str.length pat.length
  (List.range e).all (fun i =>
    str.data.getD i (Char.ofNat 0) == pat.data.getD i (Char.ofNat 0))

/-- The condition evaluated (with an empty body, so with no effect) at
main.cpp lines 142-144 for the verbose flag. -/
def verboseCheck (arg : String) : Bool :=
  startsWith arg "-v" || startsWith arg "--verbose"

/-- Decimal digits folded into a natural number. -/
def digitsToNat (ds : List Char) : Nat :=
  ds.foldl (fun acc c => 10 * acc + (c.toNat - Char.toNat '0')) 0

/-- Model of the C++ library primitive std::stof as invoked at main.cpp
line 137. std::stof throws std::invalid_argument when no initial numeric
conversion can be performed, modelled by none; on success the parsed value
is returned (the model covers plain decimal literals with optional sign and
fractional part, which includes every claim-relevant input; hexadecimal,
exponent, inf and nan forms are outside the inputs any theorem uses). -/
def stof (s : String) : Option ℚ :=
  let cs := s.data.dropWhile (fun c => c == ' ')
  let signBody : ℚ × List Char :=
    match cs with
    | '-' :: rest => (-1, rest)
    | '+' :: rest => (1, rest)
    | _ => (1, cs)
  let intDigits := signBody.2.takeWhile Char.isDigit
  let afterInt := signBody.2.dropWhile Char.isDigit
  let fracDigits : List Char :=
    match afterInt with
    | '.' :: rest => rest.takeWhile Char.isDigit
    | _ => []
  if intDigits.isEmpty && fracDigits.isEmpty then
    none
  else
    some (signBody.1 * ((digitsToNat intDigits : ℚ) +
      (digitsToNat fracDigits : ℚ) / ((10 : ℚ) ^ fracDigits.length)))

/-- parseArgs, main.cpp lines 111-151. The argv list includes the program
name at position 0, as in C++. Fields the C++ leaves uninitialized on the
quit paths (mediaFilepath, dictionaryName as empty std::string; markerSizeMM
as an indeterminate float, modelled 0) are never read on those paths.
The scan for --help / -h runs over the whole of argv (including argv[0])
before anything else; extra arguments start at argv[4]; the verbose check
(verboseCheck) is evaluated there with an empty body. std::stof throwing
from line 137 propagates out of parseArgs, modelled as Except.error. -/
def parseArgs (argv : List String) : Except CppException RunConfiguration :=
  let cfg : RunConfiguration :=
    { mediaFilepath := "", dictionaryName := "", markerSizeMM := 0,
      cameraFocalLengthMM := 1, startFrame := 0, endFrame := 0,
      quit := false, printEmptyFrames := false, errorMessage := "" }
  if argv.any (fun a => a == "--help" || a == "-h") then
    .ok { cfg with quit := true, errorMessage := usageMessage }
  else if argv.length < 4 then
    .ok { cfg with quit := true, errorMessage := notEnoughArgsMessage }
  else
    match stof (argv.getD 3 "") with
    | none => .error .invalidArgument
    | some size =>
      .ok { cfg with
        mediaFilepath := argv.getD 1 "",
        dictionaryName := argv.getD 2 "",
        markerSizeMM := size,
        printEmptyFrames :=
          (argv.drop 4).any (fun a => startsWith a "--print-empty-frames") }

/-- getDictFromName, main.cpp lines 163-173. The C++ body fills a local
unordered_map named supported with the six supported names and then returns
getPredefinedDictionary(supported[name]). unordered_map::operator[] on an
absent key inserts a value-initialized mapped value, and a value-initialized
PREDEFINED_DICTIONARY_NAME is enumerator 0, i.e. DICT_4X4_50 — so an
unsupported name silently resolves to DICT_4X4_50 instead of failing.
getPredefinedDictionary is the injective OpenCV table lookup, so the
resolver is modelled at the enumerator level. -/
def getDictFromName (name : String) : PredefinedDictionaryName :=
  if name == "DEFAULT" then .DICT_ARUCO_ORIGINAL
  else if name == "ARUCO" then .DICT_ARUCO_ORIGINAL
  else if name == "APRILTAG_16H5" then .DICT_APRILTAG_16h5
  else if name == "APRILTAG_25H9" then .DICT_APRILTAG_25h9
  else if name == "APRILTAG_36H10" then .DICT_APRILTAG_36h10
  else if name == "APRILTAG_36H11" then .DICT_APRILTAG_36h11
  else .DICT_4X4_50

/-- objPoints, main.cpp lines 57-61: the marker's object-space square,
corners at (±size/2, ±size/2, 0) in the order written by the code. -/
def buildObjPoints (markerSizeMM : ℚ) : List Vec3 :=
  [ ⟨-markerSizeMM / 2, markerSizeMM / 2, 0⟩,
    ⟨markerSizeMM / 2, markerSizeMM / 2, 0⟩,
    ⟨markerSizeMM / 2, -markerSizeMM / 2, 0⟩,
    ⟨-markerSizeMM / 2, -markerSizeMM / 2, 0⟩ ]

/-- The camera intrinsic matrix assignments of main.cpp lines 64-73:
fx = fy = cfg.cameraFocalLengthMM, principal point (cols/2, rows/2),
zero skew, bottom row (0,0,1). cols and rows come from whatever the
cv::Mat named frame holds at that point of main. -/
def buildCameraMatrix (focal : ℚ) (cols rows : Nat) : CameraIntrinsics :=
  { m00 := focal, m01 := 0, m02 := (cols : ℚ) / 2,
    m10 := 0, m11 := focal, m12 := (rows : ℚ) / 2,
    m20 := 0, m21 := 0, m22 := 1 }

/-- The 4-element zero distortion vector of main.cpp lines 75-79. -/
def cameraDistortion : List ℚ := [0, 0, 0, 0]

/-- Dimensions of the cv::Mat named frame at the point the camera matrix is
built (main.cpp lines 64-73): that is right after the skip loop of lines
46-51 and before the main loop, so frame holds the last frame read by the
skip loop, or is still the default-constructed empty cv::Mat
(cols = rows = 0) when startFrame = 0 and no read has happened yet. -/
def frameAfterSkipDims (startFrame : Nat) (frames : List Frame) : Nat × Nat :=
  if startFrame = 0 then (0, 0)
  else
    match frames.get? (startFrame - 1) with
    | some f => (f.cols, f.rows)
    | none => (0, 0)

/-- The camera matrix a run builds, as a function of the configuration and
the stream contents (main.cpp lines 46-51 and 63-73). -/
def runCameraMatrix (cfg : RunConfiguration) (frames : List Frame) :
    CameraIntrinsics :=
  let dims := frameAfterSkipDims cfg.startFrame frames
  buildCameraMatrix cfg.cameraFocalLengthMM dims.1 dims.2

/-- The rvecs/tvecs vectors after one loop iteration, main.cpp lines 95-101:
one slot per element of markerCorners; when markerIds is nonempty every slot
is filled by a cv::solvePnP call on that marker's corners, unconditionally —
there is no degeneracy check and no failure path; when markerIds is empty
the slots keep their default-constructed cv::Vec3d value (0,0,0). -/
def framePoses (objPoints : List Vec3) (cam : CameraIntrinsics)
    (dist : List ℚ) (solver : PnPSolver) (f : Frame) : List (Vec3 × Vec3) :=
  if f.markerIds.isEmpty then
    f.markerCorners.map (fun _ => (⟨0, 0, 0⟩, ⟨0, 0, 0⟩))
  else
    f.markerCorners.map (fun corners => solver objPoints corners cam dist)

/-- What one loop iteration prints on standard output, main.cpp lines
98-104: when markerIds is nonempty the branch only runs the solvePnP loop
and prints nothing (printJSONL, declared at line 30 and defined at lines
175-187, is never invoked anywhere in main); when markerIds is empty and
cfg.printEmptyFrames is set, the literal empty record for frame i is
printed inline (line 103). -/
def frameStep (cfg : RunConfiguration) (i : Nat) (f : Frame) :
    List FrameRecordOut :=
  if f.markerIds.isEmpty then
    if cfg.printEmptyFrames then [⟨i, []⟩] else []
  else []

/-- printJSONL, main.cpp lines 175-187: builds the frame record with the
marker ids (the corner/pose fields are commented out in the C++ body).
It is declared and defined but never called by main. -/
def printJSONL (frame : Nat) (markerIds : List Int) : FrameRecordOut :=
  ⟨frame, markerIds⟩

/-- The main loop, main.cpp lines 86-105: the loop guard is
i < endFrame || endFrame == 0; each iteration reads the next frame
(breaking when the stream is exhausted), runs detectMarkers (whose output
the Frame carries), computes the poses (framePoses, observably unused since
nothing prints them) and emits frameStep's output. When the stream is
exhausted the guard-first order of the C++ loop produces the same empty
output as this structural recursion. -/
def processFrames (cfg : RunConfiguration) (objPoints : List Vec3)
    (cam : CameraIntrinsics) (dist : List ℚ) (solver : PnPSolver) :
    Nat → List Frame → List FrameRecordOut
  | _, [] => []
  | i, f :: rest =>
    if i < cfg.endFrame ∨ cfg.endFrame = 0 then
      let _rvecs_tvecs := framePoses objPoints cam dist solver f
      frameStep cfg i f ++ processFrames cfg objPoints cam dist solver (i + 1) rest
    else []

/-- main.cpp lines 39-108, the part of main after parseArgs: open the video
(media = none models an unopenable path), sequentially discard
cfg.startFrame frames (failing when the stream is shorter), resolve the
dictionary, build objPoints, build the camera matrix from whatever frame
holds at that point, run the main loop over the remaining frames and exit 0. -/
def runPipeline (cfg : RunConfiguration) (media : Option (List Frame))
    (solver : PnPSolver) : RunOutcome :=
  match media with
  | none => .finished (-1) [] [failedToOpenMessage cfg.mediaFilepath]
  | some frames =>
    if frames.length < cfg.startFrame then
      .finished (-1) [] [startFrameMessage]
    else
      let _dictionary := getDictFromName cfg.dictionaryName
      let objPoints := buildObjPoints cfg.markerSizeMM
      let cam := runCameraMatrix cfg frames
      let out := processFrames cfg objPoints cam cameraDistortion solver
        cfg.startFrame (frames.drop cfg.startFrame)
      .finished 0 out []

/-- main.cpp lines 32-37 wired to the pipeline: parseArgs first (an
escaping std::stof exception terminates the process), then the quit path
printing cfg.errorMessage on standard error and returning -1, then the
pipeline of lines 39-108. -/
def mainRun (argv : List String) (media : Option (List Frame))
    (solver : PnPSolver) : RunOutcome :=
  match parseArgs argv with
  | .error _ => .uncaughtException
  | .ok cfg =>
    if cfg.quit then .finished (-1) [] [cfg.errorMessage]
    else runPipeline cfg media solver

/-- A concrete solver for closed instances: constant zero pose. -/
def sol0 : PnPSolver := fun _ _ _ _ => (⟨0, 0, 0⟩, ⟨0, 0, 0⟩)

/-- A concrete solver for closed instances: a fixed nonzero pose, used to
show the pipeline forwards whatever cv::solvePnP returns, unchecked. -/
def sol1 : PnPSolver := fun _ _ _ _ => (⟨1, 2, 3⟩, ⟨4, 5, 6⟩)

/-- A 640x480 frame on which detectMarkers finds nothing. -/
def blankFrame : Frame := ⟨640, 480, [], []⟩

/-- A 640x480 frame on which detectMarkers finds marker 7 with a proper
(non-degenerate) corner quadrilateral. -/
def detFrame : Frame :=
  ⟨640, 480, [7], [[⟨100, 100⟩, ⟨200, 100⟩, ⟨200, 200⟩, ⟨100, 200⟩]]⟩

/-- Four collinear image-plane corners (all on the line y = 0): a
zero-area, degenerate quadrilateral. -/
def collinearCorners : List Point2 := [⟨0, 0⟩, ⟨1, 0⟩, ⟨2, 0⟩, ⟨3, 0⟩]

/-- A 640x480 frame on which detectMarkers reports marker 9 with the
degenerate collinear corner set. -/
def degenerateFrame : Frame := ⟨640, 480, [9], [collinearCorners]⟩

/-- The configuration parseArgs produces for
app video.mp4 ARUCO 50.0 (Scenario A). -/
def cfgArucoDemo : RunConfiguration :=
  { mediaFilepath := "video.mp4", dictionaryName := "ARUCO",
    markerSizeMM := 50, cameraFocalLengthMM := 1, startFrame := 0,
    endFrame := 0, quit := false, printEmptyFrames := false,
    errorMessage := "" }

/-- The configuration parseArgs produces for
app video.mp4 ARUCO 50.0 --print-empty-frames (Scenario B). -/
def cfgPrintEmpty : RunConfiguration :=
  { cfgArucoDemo with printEmptyFrames := true }

/-- The configuration parseArgs produces when the extra argument
--focalmm=35.0 is supplied. -/
def cfgFocalDemo : RunConfiguration := cfgArucoDemo

/-- The configuration parseArgs produces when the extra argument is the
single character - (which mutual-prefix-matches --print-empty-frames). -/
def cfgDashDemo : RunConfiguration := cfgPrintEmpty

/-- A configuration with start frame 1 and empty-frame printing on, used
to exercise the skip loop (RunConfiguration supports nonzero start frames
even though parseArgs never sets one). -/
def cfgStart1 : RunConfiguration :=
  { cfgPrintEmpty with startFrame := 1 }

/-- Any record frameStep emits is the empty record for its own frame index:
the only printing statement in the loop body is the inline empty-record
print of main.cpp line 103. -/
theorem frameStep_mem (cfg : RunConfiguration) (i : Nat) (f : Frame)
    (r : FrameRecordOut) (h : r ∈ frameStep cfg i f) :
    r = ⟨i, []⟩ := by
  unfold frameStep at h
  split at h
  · split at h
    · simpa using h
    · simp at h
  · simp at h

/-- Every record the main loop emits carries a frame index at least the
index the loop started from, and an empty detection list. -/
theorem processFrames_mem (cfg : RunConfiguration) (obj : List Vec3)
    (cam : CameraIntrinsics) (dist : List ℚ) (solver : PnPSolver) :
    ∀ (frames : List Frame) (i : Nat) (r : FrameRecordOut),
      r ∈ processFrames cfg obj cam dist solver i frames →
        i ≤ r.frame_id ∧ r.detections = [] := by
  intro frames
  induction frames with
  | nil => intro i r h; simp [processFrames] at h
  | cons f rest ih =>
    intro i r h
    unfold processFrames at h
    split at h
    · rcases List.mem_append.mp h with h1 | h2
      · rw [frameStep_mem cfg i f r h1]
        exact ⟨Nat.le_refl i, rfl⟩
      · have h3 := ih (i + 1) r h2
        exact ⟨Nat.le_of_succ_le h3.1, h3.2⟩
    · simp at h

/-- startsWith accepts exactly the strings that agree with the pattern on
the first min(length) characters. -/
theorem startsWith_eq_true_iff (s p : String) :
    startsWith s p = true ↔
      ∀ i, i < min s.length p.length →
        s.data.getD i (Char.ofNat 0) = p.data.getD i (Char.ofNat 0) := by
  unfold startsWith
  rw [List.all_eq_true]
  constructor
  · intro h i hi
    exact beq_iff_eq.mp (h i (List.mem_range.mpr hi))
  · intro h i hi
    exact beq_iff_eq.mpr (h i (List.mem_range.mp hi))

/-- parseArgs never assigns cameraFocalLengthMM anything other than its
default 1.0: no branch of the extra-argument loop touches it. -/
theorem parseArgs_focal (argv : List String) (cfg : RunConfiguration)
    (h : parseArgs argv = .ok cfg) : cfg.cameraFocalLengthMM = 1 := by
  unfold parseArgs at h
  split at h
  · injection h with h; subst h; rfl
  · split at h
    · injection h with h; subst h; rfl
    · split at h
      · cases h
      · injection h with h; subst h; rfl

/-- On every non-quit parse result, printEmptyFrames is set exactly when
some argument after the third positional one startsWith-matches the
string for the print-empty-frames flag. -/
theorem parseArgs_flag (argv : List String) (cfg : RunConfiguration)
    (h : parseArgs argv = .ok cfg) (hq : cfg.quit = false) :
    (cfg.printEmptyFrames = true ↔
      ∃ a ∈ argv.drop 4, startsWith a "--print-empty-frames" = true) := by
  unfold parseArgs at h
  split at h
  · injection h with h; subst h; cases hq
  · split at h
    · injection h with h; subst h; cases hq
    · split at h
      · cases h
      · injection h with h; subst h
        exact List.any_eq_true

/-- C1: the claim says a frame with at least one detected marker yields
exactly one emitted FrameRecord; in the code printJSONL is never invoked,
so a run over a frame on which detectMarkers reports marker 7 emits no
record at all (with or without the empty-frame flag), while a no-detection
frame with the flag unset is indeed skipped. -/
theorem c1_detection_frames_emit_no_record :
    detFrame.markerIds = [7] ∧
    mainRun ["app", "video.mp4", "ARUCO", "50.0"] (some [detFrame]) sol0 =
      .finished 0 [] [] ∧
    mainRun ["app", "video.mp4", "ARUCO", "50.0", "--print-empty-frames"]
      (some [detFrame]) sol0 = .finished 0 [] [] ∧
    mainRun ["app", "video.mp4", "ARUCO", "50.0"] (some [blankFrame]) sol0 =
      .finished 0 [] [] := by
  decide

/-- C2: the six supported names resolve to their codebooks, with DEFAULT and
ARUCO agreeing; but an unknown name does not fail with UnknownDictionary:
unordered_map::operator[] value-initializes the absent entry, so BOGUS
resolves to enumerator 0 (DICT_4X4_50) and the run proceeds, reads frames,
exits 0, and can even emit records. -/
theorem c2_dictionary_resolution_behavior :
    getDictFromName "DEFAULT" = .DICT_ARUCO_ORIGINAL ∧
    getDictFromName "ARUCO" = .DICT_ARUCO_ORIGINAL ∧
    getDictFromName "APRILTAG_16H5" = .DICT_APRILTAG_16h5 ∧
    getDictFromName "APRILTAG_25H9" = .DICT_APRILTAG_25h9 ∧
    getDictFromName "APRILTAG_36H10" = .DICT_APRILTAG_36h10 ∧
    getDictFromName "APRILTAG_36H11" = .DICT_APRILTAG_36h11 ∧
    getDictFromName "BOGUS" = .DICT_4X4_50 ∧
    mainRun ["app", "video.mp4", "BOGUS", "50.0", "--print-empty-frames"]
      (some [blankFrame]) sol0 = .finished 0 [⟨0, []⟩] [] := by
  decide

/-- C3: for every processed frame on which detectMarkers reports zero
markers, a record is emitted exactly when the print-empty-frames flag is
set, and every record frameStep ever emits has an empty detection list. -/
theorem c3_empty_frame_emission_iff_flag (cfg : RunConfiguration) (i : Nat)
    (f : Frame) (h : f.markerIds = []) :
    frameStep cfg i f = (if cfg.printEmptyFrames then [⟨i, []⟩] else []) ∧
      ∀ r ∈ frameStep cfg i f, r.detections = [] := by
  refine ⟨?_, fun r hr => by rw [frameStep_mem cfg i f r hr]⟩
  unfold frameStep
  rw [h]
  rfl

/-- C3 witness: a concrete no-detection frame is emitted as the empty record
when the flag is set and skipped when it is unset. -/
theorem c3_empty_frame_emission_iff_flag_witness :
    frameStep cfgPrintEmpty 5 blankFrame = [⟨5, []⟩] ∧
    frameStep cfgArucoDemo 5 blankFrame = [] := by
  constructor
  · rw [(c3_empty_frame_emission_iff_flag cfgPrintEmpty 5 blankFrame rfl).1]
    rfl
  · rw [(c3_empty_frame_emission_iff_flag cfgArucoDemo 5 blankFrame rfl).1]
    rfl

/-- C4: the claim says the camera matrix is built after the first frame's
dimensions are known, with principal point (width/2, height/2); but the
code builds it before the main loop reads anything, and parseArgs always
produces startFrame = 0 (no CLI option sets it), so the cv::Mat named frame
is still the empty default-constructed matrix: for a 640x480 video the
built principal point is (0, 0), not (320, 240). -/
theorem c4_camera_matrix_from_empty_frame :
    parseArgs ["app", "video.mp4", "ARUCO", "50.0"] = .ok cfgArucoDemo ∧
    cfgArucoDemo.startFrame = 0 ∧
    frameAfterSkipDims 0 [blankFrame] = (0, 0) ∧
    runCameraMatrix cfgArucoDemo [blankFrame] = buildCameraMatrix 1 0 0 ∧
    (buildCameraMatrix 1 0 0).m02 = 0 ∧
    (buildCameraMatrix 1 0 0).m12 = 0 ∧
    ((blankFrame.cols : ℚ) / 2 = 320 ∧ ((0 : ℚ) ≠ 320)) := by
  decide

/-- C5 counterexample: a run with start frame 1 over a 3-frame stream whose
frame 1 contains a marker and whose frame 2 does not, with the empty-frame
flag set, succeeds and emits its first (and only) record with frame index
2, not the start frame 1 — because frames with detections never emit. -/
theorem c5_first_emitted_index_counterexample :
    cfgStart1.startFrame = 1 ∧ cfgStart1.printEmptyFrames = true ∧
    runPipeline cfgStart1 (some [blankFrame, detFrame, blankFrame]) sol0 =
      .finished 0 [⟨2, []⟩] [] ∧
    (2 : Nat) ≠ 1 := by
  decide

/-- C5 amended: for every run with start frame s greater than 0, the skip is
performed by sequentially discarding s frames; if the stream is shorter than
s the run fails with exit code -1 and the insufficient-frames message on
standard error; otherwise the main loop processes the remaining frames
starting at index s and every emitted record's frame index is at least s. -/
theorem c5_skip_and_bound_amended (cfg : RunConfiguration)
    (frames : List Frame) (solver : PnPSolver) (_hs : 0 < cfg.startFrame) :
    (frames.length < cfg.startFrame →
      runPipeline cfg (some frames) solver =
        .finished (-1) [] [startFrameMessage]) ∧
    (cfg.startFrame ≤ frames.length →
      runPipeline cfg (some frames) solver =
        .finished 0 (processFrames cfg (buildObjPoints cfg.markerSizeMM)
          (runCameraMatrix cfg frames) cameraDistortion solver
          cfg.startFrame (frames.drop cfg.startFrame)) [] ∧
      ∀ r ∈ processFrames cfg (buildObjPoints cfg.markerSizeMM)
          (runCameraMatrix cfg frames) cameraDistortion solver
          cfg.startFrame (frames.drop cfg.startFrame),
        cfg.startFrame ≤ r.frame_id) := by
  constructor
  · intro hlt
    unfold runPipeline
    dsimp only
    rw [if_pos hlt]
  · intro hle
    constructor
    · unfold runPipeline
      dsimp only
      rw [if_neg (Nat.not_lt.mpr hle)]
    · intro r hr
      exact (processFrames_mem cfg (buildObjPoints cfg.markerSizeMM)
        (runCameraMatrix cfg frames) cameraDistortion solver
        (frames.drop cfg.startFrame) cfg.startFrame r hr).1

/-- C5 amended witness: the amended statement at a concrete configuration
with start frame 1 and a 3-frame stream. -/
theorem c5_skip_and_bound_amended_witness :
    runPipeline cfgStart1 (some [blankFrame, detFrame, blankFrame]) sol0 =
      .finished 0 (processFrames cfgStart1
        (buildObjPoints cfgStart1.markerSizeMM)
        (runCameraMatrix cfgStart1 [blankFrame, detFrame, blankFrame])
        cameraDistortion sol0 cfgStart1.startFrame
        ([blankFrame, detFrame, blankFrame].drop cfgStart1.startFrame)) [] :=
  ((c5_skip_and_bound_amended cfgStart1 [blankFrame, detFrame, blankFrame]
    sol0 (by decide)).2 (by decide)).1

/-- C6 counterexample: app -h prints the usage text (on standard error, the
stream main writes cfg.errorMessage to) and exits with code -1, not 0. -/
theorem c6_help_exit_code_counterexample :
    mainRun ["app", "-h"] none sol0 = .finished (-1) [] [usageMessage] ∧
    ((-1 : Int) ≠ 0) := by
  decide

/-- C6 amended: every invocation whose argument list contains --help or -h
prints the usage text on standard error and exits with code -1, before any
other argument is validated (no positional-argument check, no numeric
parse, and no media open happens: the outcome is the same for every
remaining argument list and every media state). -/
theorem c6_help_amended (argv : List String) (media : Option (List Frame))
    (solver : PnPSolver) (h : ∃ a ∈ argv, a = "--help" ∨ a = "-h") :
    mainRun argv media solver = .finished (-1) [] [usageMessage] := by
  have hany : argv.any (fun a => a == "--help" || a == "-h") = true := by
    rcases h with ⟨a, ha, hc⟩
    refine List.any_eq_true.mpr ⟨a, ha, ?_⟩
    rcases hc with h1 | h1 <;> simp [h1]
  unfold mainRun parseArgs
  rw [if_pos hany]
  rfl

/-- C6 amended witness: a help invocation with a missing positional
argument list and unopenable media still exits -1 with the usage text. -/
theorem c6_help_amended_witness :
    mainRun ["app", "-h", "bogus"] none sol0 =
      .finished (-1) [] [usageMessage] :=
  c6_help_amended ["app", "-h", "bogus"] none sol0 ⟨"-h", by decide, Or.inr rfl⟩

/-- C7: every configuration parseArgs can produce carries the default focal
length 1.0 (the extra-argument loop never assigns it, so --focalmm is
parsed over but not wired through), the camera matrix places that focal
length at fx and fy, and a concrete invocation supplying --focalmm=35.0 is
accepted without error yet still carries focal length 1. -/
theorem c7_focal_length_fixed_at_one :
    (∀ argv cfg, parseArgs argv = .ok cfg → cfg.cameraFocalLengthMM = 1) ∧
    (∀ (focal : ℚ) (w h : Nat),
      (buildCameraMatrix focal w h).m00 = focal ∧
      (buildCameraMatrix focal w h).m11 = focal) ∧
    parseArgs ["app", "video.mp4", "ARUCO", "50.0", "--focalmm=35.0"] =
      .ok cfgFocalDemo ∧
    cfgFocalDemo.cameraFocalLengthMM = 1 :=
  ⟨parseArgs_focal, fun _ _ _ => ⟨rfl, rfl⟩, by decide, by decide⟩

/-- C7 witness: the quantified part of the claim applied at the concrete
invocation that supplies --focalmm=35.0. -/
theorem c7_focal_length_fixed_at_one_witness :
    cfgFocalDemo.cameraFocalLengthMM = 1 :=
  c7_focal_length_fixed_at_one.1
    ["app", "video.mp4", "ARUCO", "50.0", "--focalmm=35.0"] cfgFocalDemo
    (by decide)

/-- C8: a missing-argument invocation does fail as claimed (exit -1, message
on standard error, media never opened), but an unparsable marker-size
argument does not produce a ConfigurationError: std::stof throws
std::invalid_argument, nothing catches it, and the process terminates
through std::terminate rather than exiting -1 with a message. -/
theorem c8_unparsable_marker_size_terminates :
    stof "abc" = none ∧
    parseArgs ["app", "video.mp4", "ARUCO", "abc"] =
      .error .invalidArgument ∧
    mainRun ["app", "video.mp4", "ARUCO", "abc"] (some [blankFrame]) sol0 =
      .uncaughtException ∧
    mainRun ["app", "video.mp4"] none sol0 =
      .finished (-1) [] [notEnoughArgsMessage] := by
  decide

/-- C9: for a frame whose detected marker has four collinear (zero-area)
corners, the loop still invokes the solver on those corners and stores its
(meaningless) pose unchanged — framePoses has no failure case and no
degeneracy check, so no DegenerateGeometry error exists; no record of any
detection frame is emitted anyway (printJSONL is never called), so there is
also no omission mechanism; and the loop continues to the following frame. -/
theorem c9_degenerate_corners_unhandled :
    degenerateFrame.markerCorners = [collinearCorners] ∧
    framePoses (buildObjPoints 50) (buildCameraMatrix 1 640 480)
      cameraDistortion sol1 degenerateFrame = [(⟨1, 2, 3⟩, ⟨4, 5, 6⟩)] ∧
    frameStep cfgPrintEmpty 0 degenerateFrame = [] ∧
    processFrames cfgPrintEmpty (buildObjPoints 50)
      (buildCameraMatrix 1 640 480) cameraDistortion sol1 0
      [degenerateFrame, blankFrame] = [⟨1, []⟩] := by
  decide

/-- C10: on every non-quit parse, the print-empty-frames flag is set exactly
when some argument after the third positional one agrees with the flag
string on their first min(length) characters; startsWith is exactly that
mutual-prefix test, so "--p", "-", the empty string and an extended spelling
all enable the flag, the same matching is applied by the (inert) verbose
check, and a concrete run with the single extra argument "-" parses with
the flag enabled. -/
theorem c10_mutual_prefix_flag_matching :
    (∀ argv cfg, parseArgs argv = .ok cfg → cfg.quit = false →
      (cfg.printEmptyFrames = true ↔
        ∃ a ∈ argv.drop 4, startsWith a "--print-empty-frames" = true)) ∧
    (∀ s p : String, startsWith s p = true ↔
      ∀ i, i < min s.length p.length →
        s.data.getD i (Char.ofNat 0) = p.data.getD i (Char.ofNat 0)) ∧
    (startsWith "--p" "--print-empty-frames" = true ∧
      startsWith "-" "--print-empty-frames" = true ∧
      startsWith "" "--print-empty-frames" = true ∧
      startsWith "--print-empty-framesZZZ" "--print-empty-frames" = true) ∧
    (verboseCheck "-" = true ∧ verboseCheck "--verbose-and-more" = true ∧
      verboseCheck "--x" = false) ∧
    parseArgs ["app", "video.mp4", "ARUCO", "50.0", "-"] = .ok cfgDashDemo ∧
    cfgDashDemo.printEmptyFrames = true :=
  ⟨parseArgs_flag, startsWith_eq_true_iff, by decide, by decide, by decide,
    by decide⟩

/-- C10 witness: the quantified part of the claim applied to the concrete
invocation whose extra argument is the single character "-". -/
theorem c10_mutual_prefix_flag_matching_witness :
    ∃ a ∈ (["app", "video.mp4", "ARUCO", "50.0", "-"] : List String).drop 4,
      startsWith a "--print-empty-frames" = true :=
  (c10_mutual_prefix_flag_matching.1 ["app", "video.mp4", "ARUCO", "50.0", "-"]
    cfgDashDemo (by decide) (by decide)).mp (by decide)
